import Mathlib

set_option maxRecDepth 40000

/-!
Shallow embedding of the Requirements Extraction & User Story Synthesis
Engine of the `user-story-mcp-server` repository.

Python strings are modelled as `List Char` (`PyStr`).  Python functions that
can raise an exception are modelled as `Option`-valued functions, where
`none` is the exceptional outcome.  The regular expressions of the source are
hand-compiled to matchers on `PyStr`; every matcher's doc comment cites the
pattern it implements.  All document lines handled by the matchers come from
splitting on the newline character, so no input line contains `'\n'` and the
newline subtleties of `.`/`$` do not arise there.
-/

/-- Python strings, modelled as lists of characters. -/
abbrev PyStr := List Char

/-- Python `str.isspace` for the ASCII whitespace characters recognised by
`str.strip`, `\s` and `str.split()`. -/
def isSpacePy (c : Char) : Bool :=
  c == ' ' || c == '\t' || c == '\n' || c == '\r' || c == '\x0b' || c == '\x0c'

/-- Python `str.lower` (ASCII model). -/
def pyLower (s : PyStr) : PyStr := s.map Char.toLower

/-- Drop leading whitespace. -/
def trimLeft (s : PyStr) : PyStr := s.dropWhile isSpacePy

/-- Drop trailing whitespace. -/
def trimRight (s : PyStr) : PyStr := (s.reverse.dropWhile isSpacePy).reverse

/-- Python `str.strip()`. -/
def pyStrip (s : PyStr) : PyStr := trimRight (trimLeft s)

/-- Index of the first occurrence of `sep` in `s`, if any. -/
def firstOccIdx (sep s : PyStr) : Option Nat :=
  (List.range (s.length + 1)).find? (fun i => sep.isPrefixOf (s.drop i))

/-- Python `str.split(sep)` for a non-empty separator: split at every
non-overlapping occurrence, scanning left to right (fuelled recursion). -/
def pySplitAux (sep : PyStr) : Nat → PyStr → List PyStr
  | 0, s => [s]
  | fuel + 1, s =>
    match firstOccIdx sep s with
    | none => [s]
    | some i => s.take i :: pySplitAux sep fuel (s.drop (i + sep.length))

/-- Python `str.split(sep)` (non-empty `sep`). -/
def pySplit (sep s : PyStr) : List PyStr := pySplitAux sep (s.length + 1) s

/-- Python `content.split('\n')`. -/
def splitLines (s : PyStr) : List PyStr := pySplit ['\n'] s

/-- Python `str.replace(old, new)` (non-empty `old`): replace every
non-overlapping occurrence. -/
def pyReplace (old new s : PyStr) : PyStr := List.intercalate new (pySplit old s)

/-- Python `re.sub(r'\s+', ' ', s)`: collapse every whitespace run to a
single space. -/
def collapseWs (s : PyStr) : PyStr :=
  match s with
  | [] => []
  | c :: r =>
    if isSpacePy c then ' ' :: collapseWs (r.dropWhile isSpacePy)
    else c :: collapseWs r
termination_by s.length
decreasing_by
  · simp only [List.length_cons]
    exact Nat.lt_succ_of_le (List.dropWhile_sublist _).length_le
  · simp

/-- Python `len(content.split())`: the number of maximal non-whitespace runs. -/
def pyWords (s : PyStr) : Nat :=
  ((' ' :: s).zip s).countP (fun p => isSpacePy p.1 && !isSpacePy p.2)

/-- Python `str.title()` (ASCII model): the first letter of every maximal
letter run is uppercased, the others lowercased. -/
def pyTitleAux : Bool → PyStr → PyStr
  | _, [] => []
  | prevAlpha, c :: r =>
    (if c.isAlpha then (if prevAlpha then c.toLower else c.toUpper) else c)
      :: pyTitleAux c.isAlpha r

/-- Python `str.title()` (ASCII model). -/
def pyTitle (s : PyStr) : PyStr := pyTitleAux false s

/-- Python `str(n)` for a natural number. -/
def nstr (n : Nat) : PyStr := (Nat.repr n).data


/-- Python's `in` operator on strings: `pat` occurs as a contiguous
substring of `s`. -/
def containsSub (pat s : PyStr) : Bool :=
  (List.range (s.length + 1)).any (fun i => pat.isPrefixOf (s.drop i))

/-! ### Regex building blocks

Each matcher consumes input from a fixed position and returns the remaining
input (`Option PyStr`), mirroring the backtracking behaviour of the source's
patterns; alternation is `<|>` in the pattern's order. -/

/-- Consume the literal word `w`. -/
def eatLit (w : String) (s : PyStr) : Option PyStr :=
  if w.data.isPrefixOf s then some (s.drop w.data.length) else none

/-- Consume an optional single character (`c?`); safe without backtracking
here because every use is followed by a requirement that excludes `c`. -/
def eatOptChar (c : Char) (s : PyStr) : PyStr :=
  match s with
  | x :: r => if x == c then r else s
  | [] => s

/-- Consume `\s+` greedily; every use is followed by a non-space requirement,
so no backtracking into the run is needed. -/
def eatWs1 (s : PyStr) : Option PyStr :=
  match s with
  | c :: _ => if isSpacePy c then some (s.dropWhile isSpacePy) else none
  | [] => none

/-- Match `\s+(.+)` against the rest of a newline-free line and return the
captured group: at least one space followed by at least one character; the
greedy capture is everything after the whitespace run, except that when the
rest is all whitespace, backtracking leaves the final character as capture. -/
def wsPlusCapture (rest : PyStr) : Option PyStr :=
  match rest with
  | [] => none
  | c :: r =>
    if isSpacePy c && !r.isEmpty then
      some (let t := (c :: r).dropWhile isSpacePy
            if t.isEmpty then (c :: r).drop r.length else t)
    else none

/-- Match `\s*(.+)` against the rest of a newline-free line and return the
captured group. -/
def wsStarCapture (rest : PyStr) : Option PyStr :=
  match rest with
  | [] => none
  | c :: r =>
    some (let t := (c :: r).dropWhile isSpacePy
          if t.isEmpty then (c :: r).drop r.length else t)

/-- `re.search`: try the anchored matcher at every position, leftmost first. -/
def reSearch (f : PyStr → Option PyStr) : PyStr → Option PyStr
  | [] => f []
  | c :: r => f (c :: r) <|> reSearch f r

/-! ## `business_requirements_server.py` (namespace `BRS`) -/

namespace BRS

/-! ### Structural analysis (`analyze_document_structure`) -/

/-- Uppercase ASCII letter, the `[A-Z]` class. -/
def isUpperAZ (c : Char) : Bool := 'A' ≤ c && c ≤ 'Z'

/-- The `[A-Z\s]` class. -/
def upOrSpace (c : Char) : Bool := isUpperAZ c || isSpacePy c

/-- Header pattern 1, `re.match(r'^#{1,6}\s+(.+)$', line)`: one to six `#`
characters, whitespace, captured rest. -/
def p1h (l : PyStr) : Option PyStr :=
  let k := (l.takeWhile (fun c => c == '#')).length
  if 1 ≤ k && k ≤ 6 then wsPlusCapture (l.drop k) else none

/-- Header pattern 2, `re.match(r'^\d+\.\s+(.+)$', line)`: digits, a literal
dot, whitespace, captured rest. -/
def p2h (l : PyStr) : Option PyStr :=
  let ds := l.takeWhile Char.isDigit
  if ds.isEmpty then none
  else
    match l.drop ds.length with
    | '.' :: rest => wsPlusCapture rest
    | _ => none

/-- Header pattern 3, `re.match(r'^[A-Z][A-Z\s]+:?\s*$', line)`.  This
pattern has no capture group, so a match makes the source's
`match.group(1)` raise `IndexError`; the matcher therefore only reports
whether the line matches. -/
def p3h (l : PyStr) : Bool :=
  match l with
  | [] => false
  | c :: rest =>
    isUpperAZ c && !rest.isEmpty &&
      (if rest.contains ':' then
        let before := rest.takeWhile (fun d => d != ':')
        let after := rest.drop (before.length + 1)
        !before.isEmpty && before.all upOrSpace && after.all isSpacePy
      else rest.all upOrSpace)

/-- Header patterns 4 and 5, `re.match(r'^(.+)\n=+$', line)` and
`re.match(r'^(.+)\n-+$', line)`: text, a literal newline, then a run of the
underline character (`$` also matches before one trailing newline).  The
lines these are applied to come from splitting the document on newlines, so
they contain no `'\n'` and the patterns can never match. -/
def underlineMatch (u : Char) (l : PyStr) : Option PyStr :=
  let a := l.takeWhile (fun c => c != '\n')
  if a.isEmpty || a.length == l.length then none
  else
    let rest := l.drop (a.length + 1)
    let es := rest.takeWhile (fun c => c == u)
    if !rest.isEmpty &&
        (rest.all (fun c => c == u) ||
          (!es.isEmpty && es.length + 1 == rest.length && rest.getLastD ' ' == '\n'))
    then some a else none

/-- One pass of the source's header-pattern loop over a stripped, non-blank
line: the first matching pattern wins (`break`); a pattern-3 match raises
`IndexError` (`.error`), no match yields `.ok none`. -/
def headerCandidate (l : PyStr) : Except Unit (Option PyStr) :=
  match p1h l with
  | some cap => .ok (some cap)
  | none =>
    match p2h l with
    | some cap => .ok (some cap)
    | none =>
      if p3h l then .error ()
      else
        match underlineMatch '=' l with
        | some cap => .ok (some cap)
        | none =>
          match underlineMatch '-' l with
          | some cap => .ok (some cap)
          | none => .ok none

/-- The header loop of `analyze_document_structure`: per non-blank stripped
line, the first matching pattern's captured group is stripped and appended
when its length is strictly between 3 and 100; a pattern-3 match aborts the
whole analysis with `IndexError` (`none`). -/
def headersScan : List PyStr → Option (List PyStr)
  | [] => some []
  | raw :: rest =>
    let l := pyStrip raw
    if l.isEmpty then headersScan rest
    else
      match headerCandidate l with
      | .error _ => none
      | .ok none => headersScan rest
      | .ok (some cap) =>
        let h := pyStrip cap
        (headersScan rest).map
          (fun hs => if 3 < h.length && h.length < 100 then h :: hs else hs)

/-- The fixed requirement keyword vocabulary of
`analyze_document_structure`. -/
def requirementKeywords : List PyStr :=
  ["shall".data, "should".data, "must".data, "will".data, "needs to".data,
   "required to".data, "user can".data, "system shall".data,
   "application must".data, "feature should".data, "requirement:".data,
   "req:".data, "user story:".data, "as a".data, "i want".data,
   "so that".data]

/-- The requirement loop of `analyze_document_structure`: a stripped line
longer than 20 characters whose lowercase form contains one of the
keywords is appended verbatim. -/
def analysisRequirements (lines : List PyStr) : List PyStr :=
  lines.filterMap (fun raw =>
    let l := pyStrip raw
    if 20 < l.length && requirementKeywords.any (fun kw => containsSub kw (pyLower l))
    then some l else none)

/-- The result dictionary of `analyze_document_structure`.  The
`user_roles` entry is not modelled: no analysed property mentions it, its
computation cannot raise, and it does not influence any other field. -/
structure Analysis where
  total_lines : Nat
  total_words : Nat
  total_chars : Nat
  headers : List PyStr
  requirements : List PyStr
  features : List PyStr
  estimated_stories : Nat
  complexity_level : PyStr
deriving DecidableEq, Repr

/-- `analyze_document_structure(content)`; `none` models the `IndexError`
raised by `match.group(1)` when the group-free all-caps header pattern is
the first to match some line. -/
def analyze_document_structure (content : PyStr) : Option Analysis :=
  (headersScan (splitLines content)).map (fun hs =>
    { total_lines := (splitLines content).length
      total_words := pyWords content
      total_chars := content.length
      headers := hs
      requirements := analysisRequirements (splitLines content)
      features := []
      estimated_stories := min (max (analysisRequirements (splitLines content)).length 3) 15
      complexity_level :=
        if 20 < (analysisRequirements (splitLines content)).length then "High".data
        else if (analysisRequirements (splitLines content)).length < 5 then "Low".data
        else "Medium".data })

/-! ### Requirement extraction (`extract_requirements_from_document`) -/

/-- Pattern 1, `(?:shall|should|must|will|needs?\s+to|required\s+to)\s+(.+)`,
anchored at the current position. -/
def p1At (s : PyStr) : Option PyStr :=
  (eatLit "shall" s >>= wsPlusCapture) <|>
  (eatLit "should" s >>= wsPlusCapture) <|>
  (eatLit "must" s >>= wsPlusCapture) <|>
  (eatLit "will" s >>= wsPlusCapture) <|>
  ((eatLit "need" s).map (eatOptChar 's') >>= eatWs1 >>= eatLit "to" >>= wsPlusCapture) <|>
  (eatLit "required" s >>= eatWs1 >>= eatLit "to" >>= wsPlusCapture)

/-- Pattern 2, `(?:user|system|application)\s+(?:can|shall|should|must|will)\s+(.+)`. -/
def p2At (s : PyStr) : Option PyStr :=
  (eatLit "user" s <|> eatLit "system" s <|> eatLit "application" s) >>=
    eatWs1 >>= (fun t =>
      eatLit "can" t <|> eatLit "shall" t <|> eatLit "should" t <|>
      eatLit "must" t <|> eatLit "will" t) >>= wsPlusCapture

/-- The alternation body of pattern 3 after the optional `the\s+`. -/
def p3rest (s : PyStr) : Option PyStr :=
  (eatLit "system" s <|> eatLit "application" s <|> eatLit "software" s) >>=
    eatWs1 >>= (fun t =>
      ((eatLit "provide" t).map (eatOptChar 's') <|>
       (eatLit "enable" t).map (eatOptChar 's') <|>
       (eatLit "allow" t).map (eatOptChar 's') <|>
       (eatLit "support" t).map (eatOptChar 's'))) >>= wsPlusCapture

/-- Pattern 3,
`(?:the\s+)?(?:system|application|software)\s+(?:provides?|enables?|allows?|supports?)\s+(.+)`;
the greedy optional `the\s+` is tried first. -/
def p3At (s : PyStr) : Option PyStr :=
  (eatLit "the" s >>= eatWs1 >>= p3rest) <|> p3rest s

/-- The alternation body of pattern 4 after the optional `users?\s+`. -/
def p4core (s : PyStr) : Option PyStr :=
  (eatLit "can" s >>= wsPlusCapture) <|>
  (eatLit "should" s >>= wsPlusCapture) <|>
  (eatLit "must" s >>= wsPlusCapture) <|>
  (eatLit "will" s >>= wsPlusCapture) <|>
  (eatLit "able" s >>= eatWs1 >>= eatLit "to" >>= wsPlusCapture)

/-- Pattern 4, `(?:users?\s+)?(?:can|should|must|will|able\s+to)\s+(.+)`;
the greedy optional `users?\s+` is tried first. -/
def p4At (s : PyStr) : Option PyStr :=
  ((eatLit "user" s).map (eatOptChar 's') >>= eatWs1 >>= p4core) <|> p4core s

/-- Pattern 5, `(?:feature|functionality|capability):\s*(.+)`. -/
def p5At (s : PyStr) : Option PyStr :=
  (eatLit "feature" s <|> eatLit "functionality" s <|> eatLit "capability" s) >>=
    eatLit ":" >>= wsStarCapture

/-- Pattern 6, `(?:requirement|req):\s*(.+)`; `requirement` is tried before
`req`, each with the full continuation. -/
def p6At (s : PyStr) : Option PyStr :=
  (eatLit "requirement" s >>= eatLit ":" >>= wsStarCapture) <|>
  (eatLit "req" s >>= eatLit ":" >>= wsStarCapture)

/-- The `\w` class (ASCII model). -/
def isWordChar (c : Char) : Bool := c.isAlphanum || c == '_'

/-- Consume `\w+` greedily. -/
def eatWordPlus (s : PyStr) : Option PyStr :=
  match s with
  | c :: _ => if isWordChar c then some (s.dropWhile isWordChar) else none
  | [] => none

/-- Whether `\s+so\s+that` matches at this position. -/
def soThatAt (s : PyStr) : Bool :=
  (eatWs1 s >>= eatLit "so" >>= eatWs1 >>= eatLit "that").isSome

/-- The lazy tail `(.+?)(?:\s+so\s+that|$)` of pattern 7: grow the capture
one character at a time and stop at the first point where `\s+so\s+that`
matches or the input is exhausted. -/
def lazyCap (taken : PyStr) : PyStr → Option PyStr
  | [] => none
  | c :: r =>
    if soThatAt r || r.isEmpty then some (taken ++ [c]) else lazyCap (taken ++ [c]) r

/-- Pattern 7,
`as\s+an?\s+\w+,?\s+i\s+want\s+(?:to\s+)?(.+?)(?:\s+so\s+that|$)`;
the greedy optional `to\s+` is tried first. -/
def p7At (s : PyStr) : Option PyStr :=
  eatLit "as" s >>= eatWs1 >>=
    (fun t => ((eatLit "a" t).map (eatOptChar 'n'))) >>= eatWs1 >>=
    eatWordPlus >>= (fun t => some (eatOptChar ',' t)) >>= eatWs1 >>=
    eatLit "i" >>= eatWs1 >>= eatLit "want" >>= eatWs1 >>=
    (fun u =>
      match eatLit "to" u >>= eatWs1 with
      | some v => lazyCap [] v <|> lazyCap [] u
      | none => lazyCap [] u)

/-- The ordered pattern list applied per line: `re.search` with the first
pattern that matches anywhere in the line winning. -/
def reqPatternCapture (line : PyStr) : Option PyStr :=
  reSearch p1At line <|> reSearch p2At line <|> reSearch p3At line <|>
  reSearch p4At line <|> reSearch p5At line <|> reSearch p6At line <|>
  reSearch p7At line

/-- `re.match(r'^[\*\-\+•]\s+', line)`: bullet marker then whitespace. -/
def bulletMarkQ (l : PyStr) : Bool :=
  match l with
  | c :: d :: _ => (c == '*' || c == '-' || c == '+' || c == '•') && isSpacePy d
  | _ => false

/-- `re.match(r'^\d+\.?\s+', line)`: digits, optional dot, whitespace. -/
def numMarkQ (l : PyStr) : Bool :=
  match l with
  | c :: _ =>
    c.isDigit &&
      (match l.dropWhile Char.isDigit with
       | '.' :: d :: _ => isSpacePy d
       | '.' :: [] => false
       | d :: _ => isSpacePy d
       | [] => false)
  | [] => false

/-- `re.sub(r'^[\*\-\+•\d\.]\s*', '', line)`: remove one leading marker
character and the whitespace after it. -/
def bulletClean (l : PyStr) : PyStr :=
  match l with
  | c :: r =>
    if c == '*' || c == '-' || c == '+' || c == '•' || c.isDigit || c == '.'
    then r.dropWhile isSpacePy else l
  | [] => []

/-- The action-verb/subject keyword set of the bullet branch. -/
def bulletKeywords : List PyStr :=
  ["user".data, "system".data, "shall".data, "should".data, "must".data,
   "can".data, "will".data]

/-- The phrases contributed by one raw document line in
`extract_requirements_from_document`: the first matching sentence pattern's
capture (stripped, length > 10, whitespace-collapsed), then independently
the cleaned bullet/numbered item (length > 15, containing a bullet
keyword). -/
def extractLineContrib (feature_focus : PyStr) (rawLine : PyStr) : List PyStr :=
  let line := pyStrip rawLine
  if line.length < 10 || (match line with | '#' :: _ => true | _ => false) then []
  else
    let lineLower := pyLower line
    if !feature_focus.isEmpty && !containsSub (pyLower feature_focus) lineLower then []
    else
      let fromPattern :=
        match reqPatternCapture lineLower with
        | some cap =>
          let requirement := pyStrip cap
          if requirement.length > 10 then [collapseWs requirement] else []
        | none => []
      let fromBullet :=
        if bulletMarkQ line || numMarkQ line then
          let cleaned := bulletClean line
          if cleaned.length > 15 &&
              bulletKeywords.any (fun w => containsSub w (pyLower cleaned))
          then [cleaned] else []
        else []
      fromPattern ++ fromBullet

/-- `extract_requirements_from_document(content, feature_focus)`. -/
def extract_requirements_from_document (content : PyStr) (feature_focus : PyStr) : List PyStr :=
  ((splitLines content).map (extractLineContrib feature_focus)).flatten.take 20

/-! ### Phrase deriver (`extract_action_from_requirement`,
`extract_benefit_from_requirement`) -/

/-- The body of stripping rule 1 after the optional `the\s+`.  The subject
alternation `user|users?` collapses to `users?`: trying `user` first and
backtracking to `users?` accepts exactly the same strings with the same
consumption, since the following `\s+` rules out the bare-`user` branch
whenever an `s` follows. -/
def strip1rest (s : PyStr) : Option PyStr :=
  (eatLit "system" s <|> eatLit "application" s <|>
   (eatLit "user" s).map (eatOptChar 's')) >>= eatWs1 >>=
    (fun t =>
      eatLit "can" t <|> eatLit "should" t <|> eatLit "must" t <|>
      eatLit "will" t <|> eatLit "shall" t) >>= eatWs1

/-- Stripping rule 1,
`re.sub(r'^(?:the\s+)?(?:system|application|user|users?)\s+(?:can|should|must|will|shall)\s+', '', s)`,
applied once at the start of the string. -/
def strip1 (s : PyStr) : PyStr :=
  match (eatLit "the" s >>= eatWs1 >>= strip1rest) <|> strip1rest s with
  | some rest => rest
  | none => s

/-- Stripping rule 2,
`re.sub(r'^(?:provides?|enables?|allows?|supports?|implements?)\s+', '', s)`. -/
def strip2 (s : PyStr) : PyStr :=
  match ((eatLit "provide" s).map (eatOptChar 's') <|>
         (eatLit "enable" s).map (eatOptChar 's') <|>
         (eatLit "allow" s).map (eatOptChar 's') <|>
         (eatLit "support" s).map (eatOptChar 's') <|>
         (eatLit "implement" s).map (eatOptChar 's')) >>= eatWs1 with
  | some rest => rest
  | none => s

/-- Stripping rule 3, `re.sub(r'^(?:to\s+)?', '', s)`: remove a leading
`to ` if present (the empty alternative leaves the string unchanged). -/
def strip3 (s : PyStr) : PyStr :=
  match eatLit "to" s >>= eatWs1 with
  | some rest => rest
  | none => s

/-- The single pass of `extract_action_from_requirement` before the empty
fallback: lowercase, rule 1, rule 2, rule 3, strip, drop one trailing
period. -/
def singlePassAction (requirement : PyStr) : PyStr :=
  let s := pyStrip (strip3 (strip2 (strip1 (pyLower requirement))))
  if s.getLast? == some '.' then s.dropLast else s

/-- `extract_action_from_requirement(requirement)`. -/
def extract_action_from_requirement (requirement : PyStr) : PyStr :=
  let r := singlePassAction requirement
  if r.isEmpty then pyLower requirement else r

/-- Benefit pattern `so\s+that\s+(.+)`. -/
def pb1At (s : PyStr) : Option PyStr :=
  eatLit "so" s >>= eatWs1 >>= eatLit "that" >>= wsPlusCapture

/-- Benefit pattern `in\s+order\s+to\s+(.+)`. -/
def pb2At (s : PyStr) : Option PyStr :=
  eatLit "in" s >>= eatWs1 >>= eatLit "order" >>= eatWs1 >>= eatLit "to" >>= wsPlusCapture

/-- Benefit pattern `to\s+ensure\s+(.+)`. -/
def pb3At (s : PyStr) : Option PyStr :=
  eatLit "to" s >>= eatWs1 >>= eatLit "ensure" >>= wsPlusCapture

/-- Benefit pattern `enabling\s+(.+)`. -/
def pb4At (s : PyStr) : Option PyStr :=
  eatLit "enabling" s >>= wsPlusCapture

/-- Benefit pattern `resulting\s+in\s+(.+)`. -/
def pb5At (s : PyStr) : Option PyStr :=
  eatLit "resulting" s >>= eatWs1 >>= eatLit "in" >>= wsPlusCapture

/-- The ordered keyword-to-benefit fallback table (Python dict iteration
preserves insertion order). -/
def benefitMapping : List (PyStr × PyStr) :=
  [("login".data, "I can securely access my account and data".data),
   ("register".data, "I can create an account and use the system".data),
   ("search".data, "I can quickly find the information I need".data),
   ("view".data, "I can see relevant information".data),
   ("edit".data, "I can keep information current and accurate".data),
   ("delete".data, "I can remove unwanted or obsolete data".data),
   ("create".data, "I can add new content to the system".data),
   ("save".data, "my work is preserved and secure".data),
   ("upload".data, "I can share files with the system".data),
   ("download".data, "I can access files when needed".data),
   ("manage".data, "I can control and organize my data".data),
   ("configure".data, "I can customize the system to my needs".data),
   ("monitor".data, "I can track important metrics and status".data),
   ("approve".data, "I can control workflow and quality".data),
   ("report".data, "I can generate insights and documentation".data)]

/-- `extract_benefit_from_requirement(requirement)`. -/
def extract_benefit_from_requirement (requirement : PyStr) : PyStr :=
  let reqLower := pyLower requirement
  match reSearch pb1At reqLower <|> reSearch pb2At reqLower <|>
        reSearch pb3At reqLower <|> reSearch pb4At reqLower <|>
        reSearch pb5At reqLower with
  | some cap => pyStrip cap
  | none =>
    match benefitMapping.find? (fun kv => containsSub kv.1 reqLower) with
    | some kv => kv.2
    | none => "I can accomplish my business objectives efficiently".data

/-! ### Story rendering and synthesis (`generate_user_stories`) -/

/-- `generate_standard_story`. -/
def generate_standard_story (storyNum : Nat) (userPersona action benefit : PyStr) : PyStr :=
  "**User Story ".data ++ nstr storyNum ++ ":**\n".data ++
  "As a ".data ++ userPersona ++ ", I want to ".data ++ action ++
    ", so that ".data ++ benefit ++ ".\n\n".data ++
  "**Acceptance Criteria:**\n".data ++
  "• Given that I am a ".data ++ userPersona ++ "\n".data ++
  "• When I ".data ++ action ++ "\n".data ++
  "• Then ".data ++ benefit ++ "\n".data ++
  "• And the system provides appropriate feedback".data

/-- `generate_detailed_story`. -/
def generate_detailed_story (storyNum : Nat)
    (userPersona action benefit originalRequirement : PyStr) : PyStr :=
  "**User Story ".data ++ nstr storyNum ++ ":**\n".data ++
  "As a ".data ++ userPersona ++ ", I want to ".data ++ action ++
    ", so that ".data ++ benefit ++ ".\n\n".data ++
  "**Original Requirement:**\n".data ++ originalRequirement ++ "\n\n".data ++
  "**Acceptance Criteria:**\n".data ++
  "• Given that I am a ".data ++ userPersona ++ " with appropriate permissions\n".data ++
  "• When I ".data ++ action ++ "\n".data ++
  "• Then ".data ++ benefit ++ "\n".data ++
  "• And the system responds within acceptable time limits\n".data ++
  "• And appropriate logging and audit trails are maintained\n".data ++
  "• And error handling is graceful and informative\n\n".data ++
  "**Definition of Done:**\n".data ++
  "• Feature is implemented and tested\n".data ++
  "• User acceptance testing is completed\n".data ++
  "• Documentation is updated".data

/-- `generate_agile_story`. -/
def generate_agile_story (storyNum : Nat) (userPersona action benefit : PyStr) : PyStr :=
  "**Story #".data ++ nstr storyNum ++ ":** ".data ++ pyTitle action ++ "\n\n".data ++
  "**User Story:**\nAs a ".data ++ userPersona ++ ", I want to ".data ++ action ++
    ", so that ".data ++ benefit ++ ".\n\n".data ++
  "**Acceptance Criteria:**\n".data ++
  "- [ ] Given a ".data ++ userPersona ++ "\n".data ++
  "- [ ] When they ".data ++ action ++ "\n".data ++
  "- [ ] Then ".data ++ benefit ++ "\n".data ++
  "- [ ] And system provides feedback\n\n".data ++
  "**Story Points:** TBD\n".data ++
  "**Priority:** TBD".data

/-- `generate_default_story(user_persona)`. -/
def generate_default_story (userPersona : PyStr) : PyStr :=
  "**User Story 1:**\nAs a ".data ++ userPersona ++
  ", I want to use the system features, so that I can accomplish my goals efficiently.\n\n**Acceptance Criteria:**\n• Given that I have access to the system\n• When I use the available features\n• Then I can complete my tasks\n• And the system provides helpful feedback".data

/-- A synthesized story: the loop's persona variable paired with the
rendered text the source returns (cf. the spec's `Story` record; the other
spec fields are embedded in the rendered text). -/
structure Story where
  persona : PyStr
  rendered : PyStr
deriving DecidableEq, Repr

/-- One rendered story, dispatching on the story format exactly as the
source's `if story_format == "detailed" ... elif "agile" ... else` chain. -/
def mkStory (storyFormat : PyStr) (storyNum : Nat)
    (userPersona action benefit requirement : PyStr) : Story :=
  if storyFormat == "detailed".data then
    ⟨userPersona, generate_detailed_story storyNum userPersona action benefit requirement⟩
  else if storyFormat == "agile".data then
    ⟨userPersona, generate_agile_story storyNum userPersona action benefit⟩
  else
    ⟨userPersona, generate_standard_story storyNum userPersona action benefit⟩

/-- The `for i, requirement in enumerate(requirements[:max_stories])` loop:
`i` is the running index, the persona is `user_personas[i % len(user_personas)]`. -/
def storyLoop (userPersonas : List PyStr) (storyFormat : PyStr) :
    Nat → List PyStr → List Story
  | _, [] => []
  | i, requirement :: rest =>
    mkStory storyFormat (i + 1)
        (userPersonas.getD (i % userPersonas.length) [])
        (extract_action_from_requirement requirement)
        (extract_benefit_from_requirement requirement)
        requirement
      :: storyLoop userPersonas storyFormat (i + 1) rest

/-- `generate_user_stories(requirements, user_personas, story_format,
max_stories)`.  `none` models the `ZeroDivisionError` raised by
`user_personas[i % len(user_personas)]` when the persona list is empty and
the loop body runs at least once; `max_stories` is modelled as a natural
number (the claims only concern non-negative values). -/
def generate_user_stories (requirements userPersonas : List PyStr)
    (storyFormat : PyStr) (maxStories : Nat) : Option (List Story) :=
  if requirements.isEmpty then
    some [⟨match userPersonas with | [] => "user".data | p :: _ => p,
           generate_default_story
             (match userPersonas with | [] => "user".data | p :: _ => p)⟩]
  else if userPersonas.isEmpty && maxStories != 0 then none
  else some (storyLoop userPersonas storyFormat 0 (requirements.take maxStories))

end BRS

/-! ## `server.py` (namespace `GDoc`): the Google-Doc-sourced pipeline -/

namespace GDoc

/-- `extract_action_from_requirement` of `server.py`: split on the first of
`able to` / `shall` / `should` that occurs and return the stripped second
part; fall back to the lowercased requirement. -/
def extract_action_from_requirement (requirement : PyStr) : PyStr :=
  let reqLower := pyLower requirement
  if containsSub "able to".data reqLower then
    pyStrip ((pySplit "able to".data reqLower).getD 1 [])
  else if containsSub "shall".data reqLower then
    pyStrip ((pySplit "shall".data reqLower).getD 1 [])
  else if containsSub "should".data reqLower then
    pyStrip ((pySplit "should".data reqLower).getD 1 [])
  else pyLower requirement

/-- `extract_benefit_from_requirement` of `server.py`. -/
def extract_benefit_from_requirement (requirement : PyStr) : PyStr :=
  let reqLower := pyLower requirement
  if containsSub "so that".data reqLower then
    pyStrip ((pySplit "so that".data reqLower).getD 1 [])
  else if containsSub "in order to".data reqLower then
    pyStrip ((pySplit "in order to".data reqLower).getD 1 [])
  else if ["login".data, "authenticate".data, "sign in".data].any
      (fun w => containsSub w reqLower) then
    "I can securely access the system".data
  else if ["search".data, "find".data, "locate".data].any
      (fun w => containsSub w reqLower) then
    "I can quickly find what I need".data
  else if ["save".data, "store".data, "persist".data].any
      (fun w => containsSub w reqLower) then
    "my data is preserved for future use".data
  else if ["delete".data, "remove".data].any
      (fun w => containsSub w reqLower) then
    "I can manage my data effectively".data
  else "I can accomplish my goals efficiently".data

/-- `generate_default_stories()`: the two fixed fallback stories. -/
def generate_default_stories : List PyStr :=
  ["**User Story 1:**\nAs a user, I want to access the system, so that I can use its features.\n\n**Acceptance Criteria:**\n• Given that I have valid credentials\n• When I attempt to log in\n• Then I should be granted access\n• And I should see the main interface".data,
   "**User Story 2:**\nAs a user, I want to navigate through the application, so that I can find the features I need.\n\n**Acceptance Criteria:**\n• Given that I am logged in\n• When I use the navigation menu\n• Then I should be able to access different sections\n• And the interface should be intuitive and responsive".data]

/-- The requirement keyword vocabulary of `generate_stories_from_content`. -/
def requirementKeywords : List PyStr :=
  ["user".data, "customer".data, "shall".data, "should".data, "must".data,
   "requirement".data, "need".data, "want".data, "allow".data, "enable".data,
   "provide".data, "feature".data, "functionality".data, "capability".data,
   "able to".data, "should be able".data, "system must".data,
   "application should".data, "interface will".data]

/-- The story template of the `server.py` generation loop. -/
def renderStory (storyNum : Nat) (action benefit : PyStr) : PyStr :=
  "**User Story ".data ++ nstr storyNum ++ ":**\n".data ++
  "As a user, I want to ".data ++ action ++ ", so that ".data ++ benefit ++ ".\n\n".data ++
  "**Acceptance Criteria:**\n".data ++
  "• Given that I am a user with appropriate access\n".data ++
  "• When I ".data ++ action ++ "\n".data ++
  "• Then I should successfully complete the task\n".data ++
  "• And the system should provide appropriate feedback\n".data ++
  "• And the action should be logged/tracked as needed".data

/-- `generate_stories_from_content(content, feature_focus)`: keyword-filter
the lines into requirements, optionally filter by feature focus, render at
most five stories, and fall back to the two default stories when none were
generated. -/
def generate_stories_from_content (content featureFocus : PyStr) : List PyStr :=
  let requirements := (splitLines content).filterMap (fun raw =>
    let line := pyStrip raw
    if line.length > 20 && !(match line with | '#' :: _ => true | _ => false) &&
        requirementKeywords.any (fun kw => containsSub kw (pyLower line)) then
      some (pyReplace "User".data "user".data
              (pyReplace "The system".data "the system".data line))
    else none)
  let requirements :=
    if featureFocus.isEmpty then requirements
    else requirements.filter (fun r => containsSub (pyLower featureFocus) (pyLower r))
  let stories := ((requirements.take 5).enum).map (fun p =>
    renderStory (p.1 + 1) (extract_action_from_requirement p.2)
      (extract_benefit_from_requirement p.2))
  if stories.isEmpty then generate_default_stories else stories

end GDoc

/-! ## General lemmas about the string primitives -/

/-- `dropWhile` is idempotent. -/
theorem dropWhile_idem (p : Char → Bool) (l : List Char) :
    (l.dropWhile p).dropWhile p = l.dropWhile p := by
  induction l with
  | nil => rfl
  | cons c r ih =>
    by_cases h : p c
    · simp [List.dropWhile_cons, h, ih]
    · simp [List.dropWhile_cons, h]

/-- `trimRight` is idempotent. -/
theorem trimRight_idem (s : PyStr) : trimRight (trimRight s) = trimRight s := by
  unfold trimRight
  rw [List.reverse_reverse, dropWhile_idem]

/-- A left-trimmed string is unchanged by a further left trim after a right
trim: its head, when present, is not whitespace, and `trimRight` keeps it. -/
theorem trimLeft_trimRight_trimLeft (s : PyStr) :
    trimLeft (trimRight (trimLeft s)) = trimRight (trimLeft s) := by
  rcases h : trimLeft s with _ | ⟨c, r⟩
  · simp [trimRight, trimLeft]
  · have hc : isSpacePy c = false := by
      have h2 := List.head?_dropWhile_not isSpacePy s
      unfold trimLeft at h
      rw [h] at h2
      simpa using h2
    show trimLeft (trimRight (c :: r)) = trimRight (c :: r)
    unfold trimRight
    rw [List.reverse_cons, List.dropWhile_append]
    by_cases he : (r.reverse.dropWhile isSpacePy).isEmpty
    · simp [he, trimLeft, List.dropWhile_cons, hc]
    · simp [he, trimLeft, List.dropWhile_cons, hc]

/-- `pyStrip` is idempotent, so the trimmed length of a stripped string is
its length. -/
theorem pyStrip_idem (s : PyStr) : pyStrip (pyStrip s) = pyStrip s := by
  show trimRight (trimLeft (trimRight (trimLeft s))) = trimRight (trimLeft s)
  rw [trimLeft_trimRight_trimLeft, trimRight_idem]

/-! ## Lemmas about the structural analyzer -/

/-- Every header collected by the header loop is stripped and has length
strictly between 3 and 100. -/
theorem headersScan_bounds :
    ∀ (lines : List PyStr) (hs : List PyStr), BRS.headersScan lines = some hs →
      ∀ h ∈ hs, (3 < h.length ∧ h.length < 100) ∧ pyStrip h = h := by
  intro lines
  induction lines with
  | nil =>
    intro hs hscan h hmem
    simp only [BRS.headersScan] at hscan
    cases hscan
    simp at hmem
  | cons raw rest ih =>
    intro hs hscan h hmem
    simp only [BRS.headersScan] at hscan
    by_cases he : (pyStrip raw).isEmpty
    · rw [if_pos he] at hscan
      exact ih hs hscan h hmem
    · rw [if_neg he] at hscan
      rcases hcand : BRS.headerCandidate (pyStrip raw) with e | o
      · rw [hcand] at hscan; cases hscan
      · rcases o with _ | cap
        · rw [hcand] at hscan
          exact ih hs hscan h hmem
        · rw [hcand] at hscan
          rcases hrest : BRS.headersScan rest with _ | hs2
          · rw [hrest] at hscan; cases hscan
          · rw [hrest] at hscan
            simp only [Option.map_some] at hscan
            cases hscan
            by_cases hb : (3 < (pyStrip cap).length && (pyStrip cap).length < 100) = true
            · simp only [if_pos hb] at hmem
              rcases List.mem_cons.mp hmem with rfl | hmem2
              · refine ⟨?_, pyStrip_idem cap⟩
                simpa [Bool.and_eq_true, decide_eq_true_eq] using hb
              · exact ih hs2 hrest h hmem2
            · simp only [if_neg hb] at hmem
              exact ih hs2 hrest h hmem

/-! ## Claim theorems -/

/-- C8: for every document whose analysis succeeds, every string in the
profile's header list has trimmed length strictly greater than 3 and
strictly less than 100. -/
theorem headers_length_bounds (content : PyStr) (a : BRS.Analysis)
    (h : BRS.analyze_document_structure content = some a) :
    ∀ hd ∈ a.headers, 3 < (pyStrip hd).length ∧ (pyStrip hd).length < 100 := by
  intro hd hmem
  unfold BRS.analyze_document_structure at h
  rcases hscan : BRS.headersScan (splitLines content) with _ | hs
  · rw [hscan] at h; cases h
  · rw [hscan] at h
    simp only [Option.map_some'] at h
    injection h with h
    subst h
    obtain ⟨hb, hself⟩ := headersScan_bounds (splitLines content) hs hscan hd hmem
    rw [hself]
    exact hb

/-- The document of the C8 witness. -/
def docC8 : PyStr := "## Valid Section Header\nsome text".data

/-- The analysis computed for the C8 witness document. -/
def anaC8 : BRS.Analysis :=
  (BRS.analyze_document_structure docC8).getD ⟨0, 0, 0, [], [], [], 0, []⟩

theorem headers_length_bounds_w :
    3 < (pyStrip ("Valid Section Header".data)).length ∧
      (pyStrip ("Valid Section Header".data)).length < 100 :=
  headers_length_bounds docC8 anaC8 (by decide) ("Valid Section Header".data) (by decide)

/-- C6 (amended): every line whose trimmed text is longer than 20
characters and whose lowercased trimmed text contains a requirement keyword
is appended, trimmed, to the profile's requirement list. -/
theorem keyword_line_recorded (content raw : PyStr) (a : BRS.Analysis)
    (h : BRS.analyze_document_structure content = some a)
    (hmem : raw ∈ splitLines content)
    (hlen : 20 < (pyStrip raw).length)
    (hkw : BRS.requirementKeywords.any
      (fun kw => containsSub kw (pyLower (pyStrip raw))) = true) :
    pyStrip raw ∈ a.requirements := by
  unfold BRS.analyze_document_structure at h
  rcases hscan : BRS.headersScan (splitLines content) with _ | hs
  · rw [hscan] at h; cases h
  · rw [hscan] at h
    simp only [Option.map_some'] at h
    injection h with h
    subst h
    show pyStrip raw ∈ BRS.analysisRequirements (splitLines content)
    unfold BRS.analysisRequirements
    refine List.mem_filterMap.mpr ⟨raw, hmem, ?_⟩
    simp only [hkw, Bool.and_true]
    rw [if_pos]
    simp [hlen]

/-- The single-line document of the C6 witness. -/
def docC6 : PyStr := "the system shall export data fast".data

/-- The analysis computed for the C6 witness document. -/
def anaC6 : BRS.Analysis :=
  (BRS.analyze_document_structure docC6).getD ⟨0, 0, 0, [], [], [], 0, []⟩

theorem keyword_line_recorded_w : pyStrip docC6 ∈ anaC6.requirements :=
  keyword_line_recorded docC6 docC6 anaC6 (by decide) (by decide) (by decide)
    (by decide)

/-- C6 (counterexample): the line `user can log in` contains the keyword
`user can`, yet the analysis of the document consisting of that single line
records no requirement line, because the line's trimmed length is not
greater than 20. -/
theorem short_keyword_line_skipped :
    (BRS.analyze_document_structure ("user can log in".data)).map
        BRS.Analysis.requirements = some [] ∧
      BRS.requirementKeywords.any
        (fun kw => containsSub kw (pyLower (pyStrip ("user can log in".data)))) = true ∧
      ¬ 20 < (pyStrip ("user can log in".data)).length := by decide

/-- C7: the document `Introduction\n=====` holds an underline-style
heading whose text has trimmed length 12, strictly between 3 and 100, yet
the analysis returns an empty header list: the underline patterns require a
literal newline and are matched against the individual lines obtained by
splitting on newlines. -/
theorem underline_heading_not_detected :
    (BRS.analyze_document_structure ("Introduction\n=====".data)).map
        BRS.Analysis.headers = some [] ∧
      3 < (pyStrip ("Introduction".data)).length ∧
      (pyStrip ("Introduction".data)).length < 100 := by decide

/-- C4: for every document and feature focus, the extracted requirement
list has length at most 20. -/
theorem extract_requirements_le_twenty (content feature_focus : PyStr) :
    (BRS.extract_requirements_from_document content feature_focus).length ≤ 20 := by
  unfold BRS.extract_requirements_from_document
  rw [List.length_take]
  exact Nat.min_le_left _ _

/-! ## Lemmas about the story synthesizer -/

/-- Every format branch of `mkStory` records the given persona. -/
theorem mkStory_persona (fmt : PyStr) (n : Nat) (p a b r : PyStr) :
    (BRS.mkStory fmt n p a b r).persona = p := by
  unfold BRS.mkStory
  by_cases h1 : fmt == "detailed".data
  · simp [h1]
  · by_cases h2 : fmt == "agile".data
    · simp [h1, h2]
    · simp [h1, h2]

/-- The synthesis loop produces one story per requirement. -/
theorem storyLoop_length (P : List PyStr) (fmt : PyStr) :
    ∀ (reqs : List PyStr) (i : Nat), (BRS.storyLoop P fmt i reqs).length = reqs.length := by
  intro reqs
  induction reqs with
  | nil => intro i; rfl
  | cons req rest ih => intro i; simp [BRS.storyLoop, ih]

/-- The story at position `j` of the loop started at index `i0` records the
persona at index `(i0 + j) mod len(personas)`. -/
theorem storyLoop_get_persona (P : List PyStr) (fmt : PyStr) :
    ∀ (reqs : List PyStr) (i0 j : Nat) (hj : j < (BRS.storyLoop P fmt i0 reqs).length),
      ((BRS.storyLoop P fmt i0 reqs).get ⟨j, hj⟩).persona = P.getD ((i0 + j) % P.length) [] := by
  intro reqs
  induction reqs with
  | nil => intro i0 j hj; simp [BRS.storyLoop] at hj
  | cons req rest ih =>
    intro i0 j hj
    match j with
    | 0 => simpa [BRS.storyLoop] using mkStory_persona fmt (i0 + 1) _ _ _ _
    | j' + 1 =>
      have := ih (i0 + 1) j' (by simpa [BRS.storyLoop, Nat.succ_lt_succ_iff] using hj)
      simpa [BRS.storyLoop, Nat.add_assoc, Nat.add_comm 1 j'] using this

/-! ## Claim theorems for synthesis and the phrase deriver -/

/-- C1: calling synthesis with a non-empty requirement list and an empty
persona list fails with a `ZeroDivisionError` (from
`user_personas[i % len(user_personas)]`), rather than substituting the
default persona `user`. -/
theorem empty_personas_zero_division :
    BRS.generate_user_stories ["the system shall export data".data] []
      ("standard".data) 10 = none := by decide

/-- C2 (amended): the core synthesizer returns exactly one default story
for an empty requirement list (for any persona list, format and story cap),
while the `server.py` document pipeline returns exactly the two fixed
default stories when zero requirements are found. -/
theorem empty_requirements_exactly_one_story (P : List PyStr) (fmt : PyStr) (M : Nat) :
    (∃ s, BRS.generate_user_stories [] P fmt M = some [s]) ∧
      GDoc.generate_stories_from_content [] [] = GDoc.generate_default_stories ∧
      GDoc.generate_default_stories.length = 2 :=
  ⟨⟨_, rfl⟩, by decide, by decide⟩

/-- C2 (counterexample): a synthesis run of the `server.py` pipeline that
finds zero requirements yields two stories, not exactly one. -/
theorem gdoc_zero_requirements_two_stories :
    (GDoc.generate_stories_from_content [] []).length = 2 ∧
      (GDoc.generate_stories_from_content [] []).length ≠ 1 := by decide

/-- C3 (amended): for a non-empty requirement list, a non-empty persona
list and a positive story cap, synthesis succeeds and returns exactly
`min(len(requirements), max_stories)` stories. -/
theorem story_count_min (R P : List PyStr) (fmt : PyStr) (M : Nat)
    (hR : R ≠ []) (hP : P ≠ []) (hM : 0 < M) :
    ∃ l, BRS.generate_user_stories R P fmt M = some l ∧
      l.length = min R.length M := by
  refine ⟨BRS.storyLoop P fmt 0 (R.take M), ?_, ?_⟩
  · unfold BRS.generate_user_stories
    rw [if_neg (by simpa using hR), if_neg (by simp [hP])]
  · rw [storyLoop_length, List.length_take, Nat.min_comm]

theorem story_count_min_w :
    ∃ l, BRS.generate_user_stories
        ["review audit logs".data, "configure alerts daily".data]
        ["admin".data] ("standard".data) 5 = some l ∧
      l.length = min (["review audit logs".data,
        "configure alerts daily".data] : List PyStr).length 5 :=
  story_count_min _ _ _ _ (by decide) (by decide) (by decide)

/-- C3 (counterexample): with an empty persona list the call fails with a
`ZeroDivisionError` instead of returning a story list of length
`min(len(requirements), max_stories)` = 1. -/
theorem story_count_fails_empty_personas :
    BRS.generate_user_stories ["generate monthly reports".data] []
      ("agile".data) 3 = none := by decide

/-- C5: for every synthesis call with a non-empty persona list, the story
at index `i` of a successful result records persona
`personas[i mod len(personas)]`. -/
theorem persona_cycles (R P : List PyStr) (fmt : PyStr) (M : Nat)
    (hP : P ≠ []) (l : List BRS.Story)
    (h : BRS.generate_user_stories R P fmt M = some l)
    (i : Nat) (hi : i < l.length) :
    (l.get ⟨i, hi⟩).persona = P.getD (i % P.length) [] := by
  unfold BRS.generate_user_stories at h
  by_cases hR : R.isEmpty
  · rw [if_pos hR] at h
    rcases P with _ | ⟨p, ps⟩
    · exact absurd rfl hP
    · injection h with h
      subst h
      match i, hi with
      | 0, _ => simp
  · have hcond : (P.isEmpty && (M != 0)) = false := by
      rcases P with _ | ⟨q, qs⟩
      · exact absurd rfl hP
      · simp
    rw [if_neg hR, if_neg (by simp [hcond])] at h
    injection h with h
    subst h
    simpa using storyLoop_get_persona P fmt (R.take M) 0 i hi

/-- The persona list of the C5 witness. -/
def personasC5 : List PyStr := ["alice".data, "bob".data]

/-- The five-requirement list of the C5 witness. -/
def reqsC5 : List PyStr :=
  ["the system shall export data".data, "users can upload files".data,
   "provide search across archives".data, "delete stale records safely".data,
   "the application must monitor usage".data]

/-- The stories synthesized for the C5 witness. -/
def storiesC5 : List BRS.Story :=
  (BRS.generate_user_stories reqsC5 personasC5 ("standard".data) 10).getD []

theorem persona_cycles_w :
    (storiesC5.get ⟨0, by decide⟩).persona = personasC5.getD (0 % personasC5.length) [] ∧
    (storiesC5.get ⟨1, by decide⟩).persona = personasC5.getD (1 % personasC5.length) [] ∧
    (storiesC5.get ⟨2, by decide⟩).persona = personasC5.getD (2 % personasC5.length) [] ∧
    (storiesC5.get ⟨3, by decide⟩).persona = personasC5.getD (3 % personasC5.length) [] ∧
    (storiesC5.get ⟨4, by decide⟩).persona = personasC5.getD (4 % personasC5.length) [] ∧
    storiesC5.map BRS.Story.persona =
      ["alice".data, "bob".data, "alice".data, "bob".data, "alice".data] :=
  ⟨persona_cycles reqsC5 personasC5 ("standard".data) 10 (by decide) storiesC5
      (by decide) 0 (by decide),
   persona_cycles reqsC5 personasC5 ("standard".data) 10 (by decide) storiesC5
      (by decide) 1 (by decide),
   persona_cycles reqsC5 personasC5 ("standard".data) 10 (by decide) storiesC5
      (by decide) 2 (by decide),
   persona_cycles reqsC5 personasC5 ("standard".data) 10 (by decide) storiesC5
      (by decide) 3 (by decide),
   persona_cycles reqsC5 personasC5 ("standard".data) 10 (by decide) storiesC5
      (by decide) 4 (by decide),
   by decide⟩

/-- C9 (amended): the three stripping rules are applied once each in a
fixed order, then the result is trimmed and one trailing period dropped
(`singlePassAction`); an empty single-pass result falls back to the
lowercased original phrase, and a non-empty phrase always yields a
non-empty action. -/
theorem action_single_pass (p : PyStr) :
    (BRS.singlePassAction p ≠ [] →
      BRS.extract_action_from_requirement p = BRS.singlePassAction p) ∧
    (BRS.singlePassAction p = [] →
      BRS.extract_action_from_requirement p = pyLower p) ∧
    (p ≠ [] → BRS.extract_action_from_requirement p ≠ []) := by
  unfold BRS.extract_action_from_requirement
  by_cases h : (BRS.singlePassAction p).isEmpty
  · have h0 : BRS.singlePassAction p = [] := by simpa using h
    refine ⟨fun hne => absurd h0 hne, fun _ => by simp [h], fun hp => ?_⟩
    simp only [h, if_pos]
    intro hl
    exact hp (by simpa [pyLower] using congrArg List.length hl)
  · have h0 : BRS.singlePassAction p ≠ [] := by simpa using h
    exact ⟨fun _ => by simp [h], fun he => absurd he h0, fun _ => by simpa [h] using h0⟩

theorem action_single_pass_w :
    BRS.extract_action_from_requirement ("save the file.".data) = "save the file".data :=
  ((action_single_pass ("save the file.".data)).1 (by decide)).trans (by decide)

/-- C9 (counterexample): on the phrase
`provides the system can export data` the returned action still starts
with the strippable prefix `the system can `: rule 2 fires, but rule 1 is
not retried afterwards, refuting application "repeatedly until no rule
matches". -/
theorem action_strippable_prefix_remains :
    BRS.extract_action_from_requirement ("provides the system can export data".data) =
        ("the system can export data").data ∧
      BRS.strip1 (("the system can export data").data) ≠
        ("the system can export data").data := by decide

/-- C10: with an empty requirement list and a non-empty persona list,
synthesis returns the single default story for the first persona, whose
rendered text is the fixed default template, for every requested format
(the right-hand side does not mention the format). -/
theorem default_story_uses_first_persona (p : PyStr) (ps : List PyStr)
    (fmt : PyStr) (M : Nat) :
    BRS.generate_user_stories [] (p :: ps) fmt M =
      some [⟨p, BRS.generate_default_story p⟩] := rfl
